import Mathlib

/-!
Verification of the two sensor platforms in this repository:
the Sense energy sensor platform (`homeassistant/components/sense/sensor.py`)
and the Reddit sensor platform (specified by `tests/components/reddit/test_sensor.py`
together with the repository spec).

Python floats are modelled as rationals; Python's banker's rounding `round`
is modelled explicitly.  Entity objects are modelled as records, the in-place
mutation of `async_update` as a function from the old record (and the outcome
of the awaited external call) to the new record.
-/

namespace SenseSensor

/-- Python's builtin `round(q)`: nearest integer, ties to even. -/
def pyRound (q : ℚ) : ℤ :=
  let f : ℤ := ⌊q⌋
  let r : ℚ := q - (f : ℚ)
  if r < 1 / 2 then f
  else if 1 / 2 < r then f + 1
  else if f % 2 = 0 then f else f + 1

/-- Python's `round(q, 1)`: nearest multiple of 1/10, ties to even. -/
def pyRound1 (q : ℚ) : ℚ := ((pyRound (q * 10) : ℚ)) / 10

/-- Python's `str.lower()`: lowercase every character. -/
def pyLower (s : String) : String := ⟨s.data.map Char.toLower⟩

/-- Constant `ACTIVE_NAME` from `sense/sensor.py`. -/
def ACTIVE_NAME : String := "Energy"

/-- Constant `ACTIVE_TYPE` from `sense/sensor.py`. -/
def ACTIVE_TYPE : String := "active"

/-- Constant `CONSUMPTION_NAME` from `sense/sensor.py`. -/
def CONSUMPTION_NAME : String := "Usage"

/-- Constant `ICON` from `sense/sensor.py`. -/
def ICON : String := "mdi:flash"

/-- Constant `MIN_TIME_BETWEEN_DAILY_UPDATES` (300 seconds), in seconds. -/
def MIN_TIME_BETWEEN_DAILY_UPDATES : ℕ := 300

/-- Constant `PRODUCTION_NAME` from `sense/sensor.py`. -/
def PRODUCTION_NAME : String := "Production"

/-- `homeassistant.const.POWER_WATT`. -/
def POWER_WATT : String := "W"

/-- `homeassistant.const.ENERGY_KILO_WATT_HOUR`. -/
def ENERGY_KILO_WATT_HOUR : String := "kWh"

/-- `SensorConfig`: data structure holding sensor configuration. -/
structure SensorConfig where
  name : String
  sensor_type : String
deriving DecidableEq, Repr

/-- `SENSOR_TYPES` dict (Python dicts preserve insertion order). -/
def SENSOR_TYPES : List (String × SensorConfig) :=
  [("active", ⟨ACTIVE_NAME, ACTIVE_TYPE⟩),
   ("daily", ⟨"Daily", "DAY"⟩),
   ("weekly", ⟨"Weekly", "WEEK"⟩),
   ("monthly", ⟨"Monthly", "MONTH"⟩),
   ("yearly", ⟨"Yearly", "YEAR"⟩)]

/-- `SENSOR_VARIANTS = [PRODUCTION_NAME.lower(), CONSUMPTION_NAME.lower()]`. -/
def SENSOR_VARIANTS : List String := [pyLower PRODUCTION_NAME, pyLower CONSUMPTION_NAME]

/-- Which update closure a sensor received in `async_setup_entry`:
`update_active` (unthrottled realtime fetch) or `update_trends`
(trend fetch throttled by `MIN_TIME_BETWEEN_DAILY_UPDATES`). -/
inductive UpdateCall
  | active
  | trends
deriving DecidableEq, Repr

/-- A snapshot of the shared `data` object (the `sense_energy` client) as read
by `async_update` after the awaited call returned: the realtime readings and
the trend table.  `get_trend` is the client's lookup by sensor type and
production flag. -/
structure SenseData where
  active_power : ℚ
  active_solar_power : ℚ
  get_trend : String → Bool → ℚ

/-- Exceptions relevant to `Sense.async_update`: the caught
`SenseAPITimeoutException`, or any other exception. -/
inductive SenseExc
  | timeout
  | other
deriving DecidableEq, Repr

/-- Outcome of awaiting `self.update_sensor()`: it returned normally (and the
shared data object now holds `d`), or it raised an exception. -/
inductive UpdateOutcome
  | ok (d : SenseData)
  | raise (e : SenseExc)

/-- The `Sense` entity: the attributes set by `Sense.__init__` and mutated by
`Sense.async_update`.  The shared `self._data` object is not duplicated in
the record; its value at update time is passed to `async_update`. -/
structure Sense where
  _name : String
  _unique_id : String
  _available : Bool
  _sensor_type : String
  update_sensor : UpdateCall
  _is_production : Bool
  _state : Option ℚ
  _unit_of_measurement : String

/-- `Sense.__init__` (the `data` argument is the shared client object and the
`sensor_id` argument is unused by the constructor body, as in the source). -/
def Sense.init (name : String) (sensor_type : String) (is_production : Bool)
    (update_call : UpdateCall) (sensor_id : String) (unique_id : String) : Sense :=
  let _ := sensor_id
  let name_type := if is_production then PRODUCTION_NAME else CONSUMPTION_NAME
  { _name := name ++ " " ++ name_type
    _unique_id := unique_id
    _available := false
    _sensor_type := sensor_type
    update_sensor := update_call
    _is_production := is_production
    _state := none
    _unit_of_measurement :=
      if sensor_type = ACTIVE_TYPE then POWER_WATT else ENERGY_KILO_WATT_HOUR }

/-- Property `Sense.name`. -/
def Sense.name (s : Sense) : String := s._name

/-- Property `Sense.state`. -/
def Sense.state (s : Sense) : Option ℚ := s._state

/-- Property `Sense.available`. -/
def Sense.available (s : Sense) : Bool := s._available

/-- Property `Sense.unit_of_measurement`. -/
def Sense.unit_of_measurement (s : Sense) : String := s._unit_of_measurement

/-- Property `Sense.icon`. -/
def Sense.icon (_ : Sense) : String := ICON

/-- Property `Sense.unique_id`. -/
def Sense.unique_id (s : Sense) : String := s._unique_id

/-- `Sense.async_update`.  Returns the updated entity together with the list of
error messages logged, or propagates the uncaught exception.  On
`SenseAPITimeoutException` the error is logged and the method returns with the
entity unchanged; any other exception escapes the `try`. -/
def Sense.async_update (s : Sense) (o : UpdateOutcome) :
    Except SenseExc (Sense × List String) :=
  match o with
  | .raise .timeout => .ok (s, ["Timeout retrieving data"])
  | .raise e => .error e
  | .ok d =>
    let s1 :=
      if s._sensor_type = ACTIVE_TYPE then
        if s._is_production then
          { s with _state := some ((pyRound d.active_solar_power : ℚ)) }
        else
          { s with _state := some ((pyRound d.active_power : ℚ)) }
      else
        { s with _state := some (pyRound1 (d.get_trend s._sensor_type s._is_production)) }
    .ok ({ s1 with _available := true }, [])

/-- `async_setup_entry`: builds the list of `Sense` entities handed to
`async_add_entities`, for a given monitor id. -/
def async_setup_entry (sense_monitor_id : String) : List Sense :=
  (SENSOR_TYPES.map (fun p =>
    SENSOR_VARIANTS.map (fun var =>
      let name := p.2.name
      let sensor_type := p.2.sensor_type
      let is_production := var = pyLower PRODUCTION_NAME
      let update_call :=
        if sensor_type = ACTIVE_TYPE then UpdateCall.active else UpdateCall.trends
      let unique_id := pyLower (sense_monitor_id ++ "-" ++ p.1 ++ "-" ++ var)
      Sense.init name sensor_type is_production update_call var unique_id))).flatten

/-- Modelled from the spec: the host platform's `Throttle` decorator
(`homeassistant.util.Throttle`, not part of the two source files) wraps
`update_trends`; per the spec the adapters "throttle/update on a timer", so a
wrapped call executes the inner external fetch only when no previous execution
happened or at least the minimum interval elapsed since the last execution,
and is skipped otherwise.  `last_called` is the time of the last execution,
in seconds. -/
structure ThrottleState where
  last_called : Option ℕ
deriving DecidableEq, Repr

/-- Modelled from the spec: one invocation of the throttled call at time `now`
(seconds).  Returns whether the inner fetch executed, and the new throttle
state. -/
def throttle_call (min_time : ℕ) (st : ThrottleState) (now : ℕ) : Bool × ThrottleState :=
  match st.last_called with
  | none => (true, ⟨some now⟩)
  | some t => if min_time ≤ now - t then (true, ⟨some now⟩) else (false, st)

/-- Whether one poll of a sensor's `update_sensor` closure performs the
external fetch: `update_active` awaits `data.update_realtime()` on every call,
`update_trends` is throttled by `MIN_TIME_BETWEEN_DAILY_UPDATES`. -/
def fetch_occurs : UpdateCall → ThrottleState → ℕ → Bool × ThrottleState
  | .active, st, _ => (true, st)
  | .trends, st, now => throttle_call MIN_TIME_BETWEEN_DAILY_UPDATES st now

end SenseSensor

namespace RedditSensor

/-- A Python scalar value appearing in the mocked Reddit API response:
an integer or a string. -/
inductive Val
  | i (z : ℤ)
  | s (v : String)
deriving DecidableEq, Repr

/-- A submission object returned by the wrapped `praw` library, with the
fields the sensor reads (shape fixed by `MOCK_RESULTS` in
`tests/components/reddit/test_sensor.py`). -/
structure Submission where
  id : Val
  url : Val
  title : Val
  score : Val
  num_comments : Val
  created : Val
  selftext : Val
deriving DecidableEq, Repr

/-- Modelled from the spec: the post record the Reddit sensor exposes in its
`ATTR_POSTS` attribute (`homeassistant/components/reddit/sensor.py` is not in
the source tree).  Per the spec a Post has "an id, url, title, score, comment
count, creation timestamp, and body text", "read-only data copied from the
wrapped library's response"; the attribute keys are those imported by the
test (`ATTR_ID`, `ATTR_URL`, `ATTR_TITLE`, `ATTR_SCORE`,
`ATTR_COMMENTS_NUMBER`, `ATTR_CREATED`, `ATTR_BODY`). -/
structure PostRecord where
  attr_id : Val
  attr_url : Val
  attr_title : Val
  attr_score : Val
  attr_comments_number : Val
  attr_created : Val
  attr_body : Val
deriving DecidableEq, Repr

/-- Modelled from the spec: "copy field A from the response into attribute B"
— the field-by-field mapping from a library submission to the exposed post
record. -/
def post_to_record (p : Submission) : PostRecord :=
  { attr_id := p.id
    attr_url := p.url
    attr_title := p.title
    attr_score := p.score
    attr_comments_number := p.num_comments
    attr_created := p.created
    attr_body := p.selftext }

/-- Modelled from the spec: the recognized sort modes — exactly the subreddit
listing methods the mock library implements (`top`, `controversial`, `hot`,
`new`); an unrecognized sort-order string is rejected by the configuration
validity check. -/
def LIST_TYPES : List String := ["top", "controversial", "hot", "new"]

/-- The configuration keys the Reddit platform reads (credentials omitted:
they are passed through to the wrapped library unchanged and never inspected).
`sort_by`/`maximum` are `none` when the key is absent. -/
structure RedditConfig where
  subreddits : List String
  sort_by : Option String
  maximum : Option ℕ
deriving DecidableEq, Repr

/-- Modelled from the spec: the default sort mode, `"hot"` (asserted as the
default by `test_setup_with_valid_config`). -/
def DEFAULT_SORT_BY : String := "hot"

/-- Modelled from the spec: the default result limit of the `maximum`
configuration key. -/
def DEFAULT_MAXIMUM : ℕ := 10

/-- The state of one Reddit sensor entity after its poll, as observed through
`hass.states.get`: entity id `sensor.reddit_{subreddit}`, scalar state, and
the attributes the test reads. -/
structure RedditEntityState where
  entity_id : String
  state : ℕ
  subreddit : String
  posts : List PostRecord
  sort_by : String
deriving DecidableEq, Repr

/-- Modelled from the spec: platform setup plus one poll.  Setup validates the
configuration (rejecting an unrecognized sort-order string, creating no
entities); otherwise it creates one entity per configured subreddit, whose
poll fetches at most `maximum` submissions from the wrapped library and maps
them onto the fixed attribute schema, the scalar state being the number of
posts. -/
def setup_platform (cfg : RedditConfig) (api : List Submission) :
    List RedditEntityState :=
  let sort_by := cfg.sort_by.getD DEFAULT_SORT_BY
  if sort_by ∈ LIST_TYPES then
    cfg.subreddits.map (fun sub =>
      let posts := (api.take (cfg.maximum.getD DEFAULT_MAXIMUM)).map post_to_record
      { entity_id := "sensor.reddit_" ++ sub
        state := posts.length
        subreddit := sub
        posts := posts
        sort_by := sort_by })
  else []

/-- `hass.states.get`: look an entity up by id. -/
def statesGet (states : List RedditEntityState) (entity_id : String) :
    Option RedditEntityState :=
  states.find? (fun st => st.entity_id == entity_id)

/-- `MOCK_RESULTS` from `tests/components/reddit/test_sensor.py`. -/
def MOCK_RESULTS : List Submission :=
  [{ id := .i 0
     url := .s "http://example.com/1"
     title := .s "example1"
     score := .s "1"
     num_comments := .s "1"
     created := .s ""
     selftext := .s "example1 selftext" },
   { id := .i 1
     url := .s "http://example.com/2"
     title := .s "example2"
     score := .s "2"
     num_comments := .s "2"
     created := .s ""
     selftext := .s "example2 selftext" }]

/-- `VALID_CONFIG` from the test: two subreddits, no `sort_by`, no
`maximum` (credentials omitted). -/
def VALID_CONFIG : RedditConfig :=
  { subreddits := ["worldnews", "news"], sort_by := none, maximum := none }

/-- `INVALID_SORT_BY_CONFIG` from the test: `sort_by` is
`"invalid_sort_by"`. -/
def INVALID_SORT_BY_CONFIG : RedditConfig :=
  { subreddits := ["worldnews", "news"], sort_by := some "invalid_sort_by",
    maximum := none }

end RedditSensor

namespace SenseSensor

/-- A concrete sensor used to instantiate hypotheses of the theorems below. -/
def sampleSense : Sense :=
  Sense.init ACTIVE_NAME ACTIVE_TYPE false UpdateCall.active "usage" "123-active-usage"

/-- The ten type-id/variant pairs `async_setup_entry` iterates over, in
iteration order. -/
def typeVarPairs : List (String × String) :=
  [("active", "production"), ("active", "usage"),
   ("daily", "production"), ("daily", "usage"),
   ("weekly", "production"), ("weekly", "usage"),
   ("monthly", "production"), ("monthly", "usage"),
   ("yearly", "production"), ("yearly", "usage")]

/-- Two distinct type/variant suffixes yield distinct lowercased unique ids,
whatever the monitor id. -/
theorem uid_ne (m t1 v1 t2 v2 : String)
    (h : ("-" ++ t1 ++ "-" ++ v1).data.map Char.toLower ≠
         ("-" ++ t2 ++ "-" ++ v2).data.map Char.toLower) :
    pyLower (m ++ "-" ++ t1 ++ "-" ++ v1) ≠ pyLower (m ++ "-" ++ t2 ++ "-" ++ v2) := by
  intro heq
  apply h
  have h2 := congrArg String.data heq
  simp only [pyLower, String.data_append, List.map_append, List.append_assoc] at h2 ⊢
  exact List.append_cancel_left h2

/-- C1: if the external update call raises `SenseAPITimeoutException` during
`async_update`, the error is logged ("Timeout retrieving data") and the method
returns with the entity — in particular its state and availability flag —
exactly as it was before the call: the update is skipped. -/
theorem sense_update_timeout_keeps_previous_state (s : Sense) :
    Sense.async_update s (.raise .timeout) =
      Except.ok (s, ["Timeout retrieving data"]) :=
  rfl

/-- C5: any exception other than the external-API timeout raised by the
external update call is not caught by `async_update` and propagates. -/
theorem sense_update_other_exception_propagates (s : Sense) (e : SenseExc)
    (h : e ≠ SenseExc.timeout) :
    Sense.async_update s (.raise e) = Except.error e := by
  cases e with
  | timeout => exact absurd rfl h
  | other => rfl

/-- Witness for C5 at a concrete sensor and the non-timeout exception. -/
theorem sense_update_other_exception_propagates_witness :
    Sense.async_update sampleSense (.raise .other) = Except.error .other :=
  sense_update_other_exception_propagates sampleSense .other (by decide)

/-- C4: a `Sense` entity exposes a name, a unit of measurement, an
availability flag and a scalar state; after an `async_update` in which the
external call does not raise, the state equals the freshly fetched reading
(active power or solar power rounded to an integer for active-type sensors,
the trend value rounded to one decimal otherwise) and the availability flag
is `true`, while name and unit are unchanged. -/
theorem sense_update_success_state_and_available (s : Sense) (d : SenseData) :
    ∃ s', Sense.async_update s (.ok d) = Except.ok (s', []) ∧
      s'.available = true ∧ s'.name = s.name ∧
      s'.unit_of_measurement = s.unit_of_measurement ∧
      s'.state = some
        (if s._sensor_type = ACTIVE_TYPE then
          if s._is_production then ((pyRound d.active_solar_power : ℚ))
          else ((pyRound d.active_power : ℚ))
        else pyRound1 (d.get_trend s._sensor_type s._is_production)) := by
  refine ⟨_, rfl, ?_, ?_, ?_, ?_⟩ <;>
    by_cases h1 : s._sensor_type = ACTIVE_TYPE <;>
    cases h2 : s._is_production <;>
    simp [Sense.async_update, Sense.available, Sense.name,
      Sense.unit_of_measurement, Sense.state, h1, h2]

/-- C8: the unit of measurement is fixed at construction solely by the sensor
type — `POWER_WATT` iff the type is `"active"`, `ENERGY_KILO_WATT_HOUR`
otherwise — and no `async_update` that returns (successfully or after a
caught timeout) changes the unit, the name or the unique id. -/
theorem sense_unit_name_id_fixed (name sensor_type : String)
    (is_production : Bool) (uc : UpdateCall) (sid uid : String)
    (s s' : Sense) (o : UpdateOutcome) (log : List String)
    (h : Sense.async_update s o = Except.ok (s', log)) :
    ((Sense.init name sensor_type is_production uc sid uid).unit_of_measurement
        = POWER_WATT ↔ sensor_type = ACTIVE_TYPE) ∧
    ((Sense.init name sensor_type is_production uc sid uid).unit_of_measurement
        = if sensor_type = ACTIVE_TYPE then POWER_WATT else ENERGY_KILO_WATT_HOUR) ∧
    s'.unit_of_measurement = s.unit_of_measurement ∧
    s'.name = s.name ∧ s'.unique_id = s.unique_id := by
  refine ⟨?_, ?_, ?_⟩
  · by_cases ht : sensor_type = ACTIVE_TYPE <;>
      simp [Sense.init, Sense.unit_of_measurement, ht, POWER_WATT,
        ENERGY_KILO_WATT_HOUR]
  · by_cases ht : sensor_type = ACTIVE_TYPE <;>
      simp [Sense.init, Sense.unit_of_measurement, ht]
  · cases o with
    | raise e =>
      cases e with
      | timeout =>
        simp only [Sense.async_update] at h
        cases h
        exact ⟨rfl, rfl, rfl⟩
      | other => simp [Sense.async_update] at h
    | ok d =>
      simp only [Sense.async_update] at h
      by_cases h1 : s._sensor_type = ACTIVE_TYPE <;>
        cases h2 : s._is_production <;>
        simp [h1, h2] at h <;>
        · cases h.1
          exact ⟨rfl, rfl, rfl⟩

/-- Witness for C8: concrete constructor arguments, and a concrete
`async_update` call (timeout outcome) discharging the hypothesis. -/
theorem sense_unit_name_id_fixed_witness :
    ((Sense.init ACTIVE_NAME ACTIVE_TYPE false UpdateCall.active "usage"
        "123-active-usage").unit_of_measurement = POWER_WATT
      ↔ ACTIVE_TYPE = ACTIVE_TYPE) ∧
    ((Sense.init ACTIVE_NAME ACTIVE_TYPE false UpdateCall.active "usage"
        "123-active-usage").unit_of_measurement
      = if ACTIVE_TYPE = ACTIVE_TYPE then POWER_WATT else ENERGY_KILO_WATT_HOUR) ∧
    sampleSense.unit_of_measurement = sampleSense.unit_of_measurement ∧
    sampleSense.name = sampleSense.name ∧
    sampleSense.unique_id = sampleSense.unique_id :=
  sense_unit_name_id_fixed ACTIVE_NAME ACTIVE_TYPE false UpdateCall.active
    "usage" "123-active-usage" sampleSense sampleSense (.raise .timeout)
    ["Timeout retrieving data"] rfl

/-- C10: a `Sense` sensor starts unavailable (`available = false`,
`state = none`); after an `async_update` whose external call returned
normally the flag is `true`, and no returning `async_update` ever takes the
flag from `true` back to `false` (a caught timeout leaves it unchanged). -/
theorem sense_availability_monotone (name sensor_type : String)
    (is_production : Bool) (uc : UpdateCall) (sid uid : String)
    (s s' : Sense) (o : UpdateOutcome) (log : List String)
    (h : Sense.async_update s o = Except.ok (s', log)) :
    (Sense.init name sensor_type is_production uc sid uid).available = false ∧
    (Sense.init name sensor_type is_production uc sid uid).state = none ∧
    ((∃ d, o = .ok d) → s'.available = true) ∧
    (s.available = true → s'.available = true) := by
  refine ⟨rfl, rfl, ?_, ?_⟩
  · rintro ⟨d, rfl⟩
    simp only [Sense.async_update] at h
    by_cases h1 : s._sensor_type = ACTIVE_TYPE <;>
      cases h2 : s._is_production <;>
      simp [h1, h2] at h <;>
      · cases h.1
        rfl
  · intro hav
    cases o with
    | raise e =>
      cases e with
      | timeout =>
        simp only [Sense.async_update] at h
        cases h
        exact hav
      | other => simp [Sense.async_update] at h
    | ok d =>
      simp only [Sense.async_update] at h
      by_cases h1 : s._sensor_type = ACTIVE_TYPE <;>
        cases h2 : s._is_production <;>
        simp [h1, h2] at h <;>
        · cases h.1
          rfl

/-- Witness for C10: concrete constructor arguments and a concrete
`async_update` call discharging the hypothesis. -/
theorem sense_availability_monotone_witness :
    (Sense.init ACTIVE_NAME ACTIVE_TYPE false UpdateCall.active "usage"
        "123-active-usage").available = false ∧
    (Sense.init ACTIVE_NAME ACTIVE_TYPE false UpdateCall.active "usage"
        "123-active-usage").state = none :=
  ⟨(sense_availability_monotone ACTIVE_NAME ACTIVE_TYPE false UpdateCall.active
      "usage" "123-active-usage" sampleSense sampleSense (.raise .timeout)
      ["Timeout retrieving data"] rfl).1,
   (sense_availability_monotone ACTIVE_NAME ACTIVE_TYPE false UpdateCall.active
      "usage" "123-active-usage" sampleSense sampleSense (.raise .timeout)
      ["Timeout retrieving data"] rfl).2.1⟩

/-- C9: `async_setup_entry` always creates exactly 10 entities — one per
type-id/variant pair — whose unique ids `"{monitor_id}-{type_id}-{variant}"`
lowercased are pairwise distinct, whatever the monitor id. -/
theorem sense_setup_entry_ten_distinct (m : String) :
    (async_setup_entry m).length = 10 ∧
    (async_setup_entry m).map Sense._unique_id =
      typeVarPairs.map (fun p => pyLower (m ++ "-" ++ p.1 ++ "-" ++ p.2)) ∧
    ((async_setup_entry m).map Sense._unique_id).Nodup := by
  refine ⟨rfl, rfl, ?_⟩
  have h : (async_setup_entry m).map Sense._unique_id =
      typeVarPairs.map (fun p => pyLower (m ++ "-" ++ p.1 ++ "-" ++ p.2)) := rfl
  rw [h]
  apply List.Nodup.map_on
  · intro x hx y hy hf
    simp only [typeVarPairs, List.mem_cons, List.not_mem_nil, or_false] at hx hy
    rcases hx with rfl|rfl|rfl|rfl|rfl|rfl|rfl|rfl|rfl|rfl <;>
      rcases hy with rfl|rfl|rfl|rfl|rfl|rfl|rfl|rfl|rfl|rfl <;>
      first
        | rfl
        | exact absurd hf (uid_ne m _ _ _ _ (by decide))
  · decide

/-- C7: the shared trend-update call is throttled: if an invocation at `t1`
performed the external trend fetch, an invocation less than
`MIN_TIME_BETWEEN_DAILY_UPDATES` (300) seconds later does not fetch again;
the active update call fetches on every poll, and `async_setup_entry` wires
the active sensors to the unthrottled call and all trend sensors to the
throttled one. -/
theorem sense_trend_fetch_throttled (st : ThrottleState) (t1 t2 : ℕ)
    (h1 : (fetch_occurs .trends st t1).1 = true)
    (h2 : t2 - t1 < MIN_TIME_BETWEEN_DAILY_UPDATES) :
    (fetch_occurs .trends (fetch_occurs .trends st t1).2 t2).1 = false ∧
    (∀ (st' : ThrottleState) (t : ℕ), (fetch_occurs .active st' t).1 = true) ∧
    (∀ m : String, (async_setup_entry m).map Sense.update_sensor =
      [.active, .active, .trends, .trends, .trends, .trends, .trends, .trends,
       .trends, .trends]) := by
  refine ⟨?_, fun st' t => rfl, fun m => rfl⟩
  have hmin : ¬ (MIN_TIME_BETWEEN_DAILY_UPDATES ≤ t2 - t1) := Nat.not_le.mpr h2
  cases hst : st.last_called with
  | none =>
    simp [fetch_occurs, throttle_call, hst, hmin]
  | some t =>
    by_cases hc : MIN_TIME_BETWEEN_DAILY_UPDATES ≤ t1 - t
    · simp [fetch_occurs, throttle_call, hst, hc, hmin]
    · simp [fetch_occurs, throttle_call, hst, hc] at h1

/-- Witness for C7: fresh throttle state, first call at 0, second at 100. -/
theorem sense_trend_fetch_throttled_witness :
    (fetch_occurs .trends (fetch_occurs .trends ⟨none⟩ 0).2 100).1 = false :=
  (sense_trend_fetch_throttled ⟨none⟩ 0 100 rfl (by decide)).1

end SenseSensor

namespace RedditSensor

/-- C2: a configuration whose sort-order string is not a recognized sort mode
is rejected by platform setup: no entity is created and querying any entity
state yields nothing. -/
theorem reddit_invalid_sort_by_rejected (cfg : RedditConfig)
    (api : List Submission) (s eid : String)
    (h1 : cfg.sort_by = some s) (h2 : s ∉ LIST_TYPES) :
    setup_platform cfg api = [] ∧
    statesGet (setup_platform cfg api) eid = none := by
  have hsetup : setup_platform cfg api = [] := by
    simp only [setup_platform, h1, Option.getD_some]
    rw [if_neg h2]
  exact ⟨hsetup, by rw [statesGet, hsetup]; rfl⟩

/-- Witness for C2: the test's `INVALID_SORT_BY_CONFIG` with the mocked API
response; the configured subreddit has no state. -/
theorem reddit_invalid_sort_by_rejected_witness :
    setup_platform INVALID_SORT_BY_CONFIG MOCK_RESULTS = [] ∧
    statesGet (setup_platform INVALID_SORT_BY_CONFIG MOCK_RESULTS)
      "sensor.reddit_worldnews" = none :=
  reddit_invalid_sort_by_rejected INVALID_SORT_BY_CONFIG MOCK_RESULTS
    "invalid_sort_by" "sensor.reddit_worldnews" rfl (by decide)

/-- C3: every post returned by the wrapped library is exposed as a record of
exactly the seven attributes id, url, title, score, comment count, creation
timestamp and body text, each copied unchanged from the corresponding
response field (`id`, `url`, `title`, `score`, `num_comments`, `created`,
`selftext`). -/
theorem reddit_post_record_copies_fields (p : Submission) :
    (post_to_record p).attr_id = p.id ∧
    (post_to_record p).attr_url = p.url ∧
    (post_to_record p).attr_title = p.title ∧
    (post_to_record p).attr_score = p.score ∧
    (post_to_record p).attr_comments_number = p.num_comments ∧
    (post_to_record p).attr_created = p.created ∧
    (post_to_record p).attr_body = p.selftext :=
  ⟨rfl, rfl, rfl, rfl, rfl, rfl, rfl⟩

/-- C6: with the fixed mocked API response of two posts and the valid
configuration, each configured subreddit gets an entity whose state is 2,
whose subreddit attribute is the subreddit name, whose first posts-list entry
is the expected literal record of the seven post attributes, and whose
sort-by attribute is the default `"hot"`. -/
theorem reddit_valid_config_mock_states :
    statesGet (setup_platform VALID_CONFIG MOCK_RESULTS)
        "sensor.reddit_worldnews" =
      some { entity_id := "sensor.reddit_worldnews", state := 2,
             subreddit := "worldnews",
             posts := MOCK_RESULTS.map post_to_record, sort_by := "hot" } ∧
    statesGet (setup_platform VALID_CONFIG MOCK_RESULTS)
        "sensor.reddit_news" =
      some { entity_id := "sensor.reddit_news", state := 2,
             subreddit := "news",
             posts := MOCK_RESULTS.map post_to_record, sort_by := "hot" } ∧
    (MOCK_RESULTS.map post_to_record).head? =
      some { attr_id := .i 0, attr_url := .s "http://example.com/1",
             attr_title := .s "example1", attr_score := .s "1",
             attr_comments_number := .s "1", attr_created := .s "",
             attr_body := .s "example1 selftext" } ∧
    MOCK_RESULTS.length = 2 := by
  refine ⟨?_, ?_, rfl, rfl⟩ <;> rfl

end RedditSensor
